import Mathlib

/-!
Verification of the qsv-rust two-stage encode pipeline core.

This file gives a shallow embedding of the surface-pool, inter-stage copy,
bitstream flush, raw-frame loading and pipeline-driver logic of
`src/main.rs` and `src/utils.rs`, and proves the stated properties about it.

Machine integers (u16, u32, usize) are modelled as `Nat`, with an explicit
`% 2^w` at the points where the Rust arithmetic can overflow (release-mode
wrapping semantics).  Status codes (`mfxStatus`, an `i32`) are modelled as
`Int`; none of the status values used approaches the i32 range.
-/

/-- Status code type of the Intel Media SDK (`mfxStatus`, an `i32`). -/
abbrev mfxStatus := Int

/-- The function completed successfully (src/constants.rs). -/
def MFX_ERR_NONE : mfxStatus := 0

/-- Unknown error (src/constants.rs). -/
def MFX_ERR_UNKNOWN : mfxStatus := -1

/-- Insufficient buffer for input or output (src/constants.rs). -/
def MFX_ERR_NOT_ENOUGH_BUFFER : mfxStatus := -5

/-- Specified object/item/sync point not found (src/constants.rs). -/
def MFX_ERR_NOT_FOUND : mfxStatus := -9

/-- Need more bitstream/input data (src/constants.rs). -/
def MFX_ERR_MORE_DATA : mfxStatus := -10

/-- `align16` from src/utils.rs: `((x + 15) >> 4) << 4` on `u16`.
The addition `x + 15` is `u16` arithmetic and wraps modulo `2^16`
(release-mode semantics); the shifts cannot overflow afterwards. -/
def align16 (x : Nat) : Nat := (((x + 15) % 65536) >>> 4) <<< 4

/-- `align32` from src/utils.rs: `(x + 31) & !31` on `u32`.
`!31 : u32 = 0xFFFFFFE0`; the addition `x + 31` wraps modulo `2^32`. -/
def align32 (x : Nat) : Nat := ((x + 31) % 4294967296) &&& 0xFFFFFFE0

/-- The fields of `mfxFrameInfo` the pipeline core reads: the crop
rectangle extent (the offsets `CropX`/`CropY` are never read). -/
structure mfxFrameInfo where
  CropW : Nat
  CropH : Nat
  deriving DecidableEq

/-- The fields of `mfxFrameData` the pipeline core reads: the `Locked`
counter (a `u16`), and the byte buffer reachable from the plane pointer
`Data.Y` (the `UV`/`V` plane pointers point into the same buffer at fixed
offsets, so one byte list starting at `Y` models the reachable storage). -/
structure mfxFrameData where
  Locked : Nat
  bytes : List Nat
  deriving DecidableEq

/-- A frame surface: geometry plus data, as used by the pipeline core. -/
structure mfxFrameSurface1 where
  Info : mfxFrameInfo
  Data : mfxFrameData
  deriving DecidableEq

/-- `GetFreeSurfaceIndex` from src/main.rs lines 895-903: scan the pool in
index order and return the first index whose surface has `Data.Locked == 0`,
or `Err(MFX_ERR_NOT_FOUND)` when no surface is free.  The Rust `for i in
0..surfaces.len()` loop returning at the first hit is translated as
structural recursion producing the same first-hit index. -/
def GetFreeSurfaceIndex : List mfxFrameSurface1 → Except mfxStatus Nat
  | [] => .error MFX_ERR_NOT_FOUND
  | s :: rest =>
    if s.Data.Locked = 0 then .ok 0
    else
      match GetFreeSurfaceIndex rest with
      | .ok i => .ok (i + 1)
      | .error e => .error e

/-- State-passing form of `GetFreeSurfaceIndex`.  The Rust function takes
`&Vec<mfxFrameSurface1>` (an immutable borrow), so the pool after the call
is the pool it was given. -/
def GetFreeSurfaceIndexSt (surfaces : List mfxFrameSurface1) :
    Except mfxStatus Nat × List mfxFrameSurface1 :=
  (GetFreeSurfaceIndex surfaces, surfaces)

lemma align16_eq_of_no_overflow (x : Nat) (h : x + 15 < 65536) :
    align16 x = 16 * ((x + 15) / 16) := by
  unfold align16
  rw [Nat.mod_eq_of_lt h, Nat.shiftRight_eq_div_pow, Nat.shiftLeft_eq]
  norm_num
  omega

lemma land_mask32 (a : Nat) (ha : a < 4294967296) :
    a &&& 0xFFFFFFE0 = 32 * (a / 32) := by
  have h1 : (0xFFFFFFE0 : Nat) = (2 ^ 27 - 1) <<< 5 := by decide
  have h2 : 32 * (a / 32) = (a >>> 5) <<< 5 := by
    rw [Nat.shiftRight_eq_div_pow, Nat.shiftLeft_eq]
    norm_num
    omega
  rw [h1, h2]
  apply Nat.eq_of_testBit_eq
  intro i
  simp only [Nat.testBit_and, Nat.testBit_shiftLeft, Nat.testBit_shiftRight,
    Nat.testBit_two_pow_sub_one]
  rcases Nat.lt_or_ge i 5 with h5 | h5
  · simp [Nat.not_le.mpr h5]
  · have h55 : 5 + (i - 5) = i := by omega
    rcases Nat.lt_or_ge i 32 with h32 | h32
    · have h27 : i - 5 < 27 := by omega
      simp [h5, h27, h55]
    · have hpow : (4294967296 : Nat) ≤ 2 ^ i := by
        calc (4294967296 : Nat) = 2 ^ 32 := by norm_num
        _ ≤ 2 ^ i := Nat.pow_le_pow_right (by norm_num) h32
      have hbit : a.testBit i = false :=
        Nat.testBit_lt_two_pow (lt_of_lt_of_le ha hpow)
      have h27 : ¬ (i - 5 < 27) := by omega
      simp [h5, h27, h55, hbit]

lemma align32_eq_of_no_overflow (x : Nat) (h : x + 31 < 4294967296) :
    align32 x = 32 * ((x + 31) / 32) := by
  unfold align32
  rw [Nat.mod_eq_of_lt h, land_mask32 _ h]

/-- C8 (amended): on the overflow-free part of the machine range
(`x + 15 < 2^16` for `align16`, `y + 31 < 2^32` for `align32`) the
alignment functions are inflationary, produce multiples of the alignment,
and are idempotent.  For larger arguments the `u16`/`u32` addition inside
wraps and the properties fail (see the counterexample). -/
theorem align_properties (x y : Nat) (hx : x + 15 < 65536) (hy : y + 31 < 4294967296) :
    x ≤ align16 x ∧ align16 x % 16 = 0 ∧ align16 (align16 x) = align16 x
    ∧ y ≤ align32 y ∧ align32 y % 32 = 0 ∧ align32 (align32 y) = align32 y := by
  have e1 := align16_eq_of_no_overflow x hx
  have hx2 : align16 x + 15 < 65536 := by rw [e1]; omega
  have e2 := align16_eq_of_no_overflow _ hx2
  have f1 := align32_eq_of_no_overflow y hy
  have hy2 : align32 y + 31 < 4294967296 := by rw [f1]; omega
  have f2 := align32_eq_of_no_overflow _ hy2
  refine ⟨?_, ?_, ?_, ?_, ?_, ?_⟩ <;> omega

/-- Witness for `align_properties` at `x = y = 100`. -/
theorem align_properties_witness :
    100 + 15 < 65536 ∧ 100 + 31 < 4294967296
    ∧ (100 ≤ align16 100 ∧ align16 100 % 16 = 0 ∧ align16 (align16 100) = align16 100
      ∧ 100 ≤ align32 100 ∧ align32 100 % 32 = 0 ∧ align32 (align32 100) = align32 100) :=
  ⟨by decide, by decide, align_properties 100 100 (by decide) (by decide)⟩

/-- C8 counterexample: the claim quantifies over the whole `u16`/`u32`
range, but near the top of the range the addition inside the alignment
functions overflows (wrapping in release builds), and `align16 x ≥ x` /
`align32 x ≥ x` fail: `align16 65521 = 0` and `align32 4294967265 = 0`. -/
theorem align_overflow_counterexample :
    align16 65521 = 0 ∧ ¬ (65521 ≤ align16 65521)
    ∧ align32 4294967265 = 0 ∧ ¬ (4294967265 ≤ align32 4294967265) := by
  refine ⟨by decide, by decide, by decide, by decide⟩

/-- C1: `GetFreeSurfaceIndex` is a pure first-fit scan.  It answers
`Err(MFX_ERR_NOT_FOUND)` exactly when every surface of the pool has
`Locked > 0`; any error it returns is `MFX_ERR_NOT_FOUND`; a returned
index is in bounds, names an unlocked surface, and is the lowest such
index; and whenever some surface is free it returns an index. -/
theorem getFreeSurfaceIndex_first_fit (pool : List mfxFrameSurface1) :
    (GetFreeSurfaceIndex pool = .error MFX_ERR_NOT_FOUND ↔
      ∀ s ∈ pool, 0 < s.Data.Locked)
    ∧ (∀ e, GetFreeSurfaceIndex pool = .error e → e = MFX_ERR_NOT_FOUND)
    ∧ (∀ i, GetFreeSurfaceIndex pool = .ok i →
        ∃ h : i < pool.length, (pool.get ⟨i, h⟩).Data.Locked = 0
          ∧ ∀ j (hj : j < pool.length), j < i → 0 < (pool.get ⟨j, hj⟩).Data.Locked)
    ∧ (∀ i (h : i < pool.length), (pool.get ⟨i, h⟩).Data.Locked = 0 →
        ∃ j, GetFreeSurfaceIndex pool = .ok j) := by
  induction pool with
  | nil =>
    refine ⟨by simp [GetFreeSurfaceIndex], ?_, ?_, ?_⟩
    · intro e he
      simpa [GetFreeSurfaceIndex] using he.symm
    · intro i hi
      simp [GetFreeSurfaceIndex] at hi
    · intro i h
      simp at h
  | cons s rest ih =>
    obtain ⟨ih1, ih2, ih3, ih4⟩ := ih
    by_cases hs : s.Data.Locked = 0
    · have hr : GetFreeSurfaceIndex (s :: rest) = .ok 0 := by
        simp [GetFreeSurfaceIndex, hs]
      refine ⟨?_, ?_, ?_, ?_⟩
      · rw [hr]
        constructor
        · intro h
          exact absurd h (by simp)
        · intro h
          exact absurd (h s (by simp)) (by omega)
      · intro e he
        rw [hr] at he
        exact absurd he (by simp)
      · intro i hi
        rw [hr] at hi
        have h0 : i = 0 := by simpa using hi.symm
        subst h0
        exact ⟨by simp, by simpa using hs, fun j hj hji => by omega⟩
      · intro i h hfree
        exact ⟨0, hr⟩
    · cases hrest : GetFreeSurfaceIndex rest with
      | ok i =>
        have hr : GetFreeSurfaceIndex (s :: rest) = .ok (i + 1) := by
          simp [GetFreeSurfaceIndex, hs, hrest]
        obtain ⟨hi, hfree, hmin⟩ := ih3 i hrest
        refine ⟨?_, ?_, ?_, ?_⟩
        · rw [hr]
          constructor
          · intro h
            exact absurd h (by simp)
          · intro hall
            have hre : GetFreeSurfaceIndex rest = .error MFX_ERR_NOT_FOUND :=
              ih1.mpr (fun t ht => hall t (by simp [ht]))
            simp [hrest] at hre
        · intro e he
          rw [hr] at he
          exact absurd he (by simp)
        · intro k hk
          rw [hr] at hk
          have hki : k = i + 1 := by simpa using hk.symm
          subst hki
          refine ⟨by simpa using hi, by simpa using hfree, ?_⟩
          intro j hj hji
          cases j with
          | zero => simpa using Nat.pos_of_ne_zero hs
          | succ j' =>
            have hj' : j' < rest.length := by simpa using hj
            simpa using hmin j' hj' (by omega)
        · intro k h hfree'
          exact ⟨i + 1, hr⟩
      | error e =>
        have he : e = MFX_ERR_NOT_FOUND := ih2 e hrest
        subst he
        have hr : GetFreeSurfaceIndex (s :: rest) = .error MFX_ERR_NOT_FOUND := by
          simp [GetFreeSurfaceIndex, hs, hrest]
        refine ⟨?_, ?_, ?_, ?_⟩
        · rw [hr]
          constructor
          · intro _ t ht
            rcases List.mem_cons.mp ht with h1 | h2
            · subst h1
              exact Nat.pos_of_ne_zero hs
            · exact ih1.mp hrest t h2
          · intro _
            rfl
        · intro e' he'
          rw [hr] at he'
          simpa using he'.symm
        · intro i hi
          rw [hr] at hi
          exact absurd hi (by simp)
        · intro i h hfree
          cases i with
          | zero => exact absurd (by simpa using hfree) hs
          | succ i' =>
            have hi' : i' < rest.length := by simpa using h
            obtain ⟨j, hj⟩ := ih4 i' hi' (by simpa using hfree)
            simp [hj] at hrest


/-- A pool with a single locked surface. -/
def lockedSurface : mfxFrameSurface1 := ⟨⟨16, 16⟩, ⟨1, []⟩⟩

/-- A free 2 by 2 surface with an empty backing buffer. -/
def freeSurface22 : mfxFrameSurface1 := ⟨⟨2, 2⟩, ⟨0, []⟩⟩

/-- Witness for `getFreeSurfaceIndex_first_fit`: on a pool whose only
surface is locked, the scan reports `MFX_ERR_NOT_FOUND`. -/
theorem getFreeSurfaceIndex_first_fit_witness :
    GetFreeSurfaceIndex [lockedSurface] = .error MFX_ERR_NOT_FOUND :=
  (getFreeSurfaceIndex_first_fit [lockedSurface]).1.mpr (by decide)

/-- C10: `GetFreeSurfaceIndex` takes the pool by immutable borrow and
performs no mutation: its state-passing form leaves the pool unchanged on
both outcomes, so a second acquisition on the post-state pool returns
exactly the same answer (and post-state) as the first. -/
theorem getFreeSurfaceIndexSt_pure (pool : List mfxFrameSurface1) :
    (GetFreeSurfaceIndexSt pool).2 = pool
    ∧ GetFreeSurfaceIndexSt ((GetFreeSurfaceIndexSt pool).2) = GetFreeSurfaceIndexSt pool :=
  ⟨rfl, rfl⟩

/-- Witness for `getFreeSurfaceIndexSt_pure` on a concrete one-surface
pool. -/
theorem getFreeSurfaceIndexSt_pure_witness :
    (GetFreeSurfaceIndexSt [freeSurface22]).2 = [freeSurface22]
    ∧ GetFreeSurfaceIndexSt ((GetFreeSurfaceIndexSt [freeSurface22]).2)
        = GetFreeSurfaceIndexSt [freeSurface22] :=
  getFreeSurfaceIndexSt_pure [freeSurface22]

/-- Model of `ptr::copy(src, dst, count)` on byte buffers: the first
`count` bytes of `dst` are replaced by the first `count` bytes of `src`;
everything past `count` is untouched. -/
def ptrCopy (src dst : List Nat) (count : Nat) : List Nat :=
  src.take count ++ dst.drop count

/-- `VppToEncSurface` from src/main.rs lines 946-977, in state-passing
form `(status, new dst)`.  Byte sizes are `CropW * CropH * 12 / 8` in
integer (usize) arithmetic; on size mismatch it returns
`Err(MFX_ERR_UNKNOWN)` without touching `dst`, otherwise it copies
`size_src` bytes from `src.Data.Y` to `dst.Data.Y`. -/
def VppToEncSurface (src dst : mfxFrameSurface1) :
    Except mfxStatus mfxStatus × mfxFrameSurface1 :=
  let w_src := src.Info.CropW
  let h_src := src.Info.CropH
  let bits_per_pixel := 12
  let size_src := w_src * h_src * bits_per_pixel / 8
  let w_dst := dst.Info.CropW
  let h_dst := dst.Info.CropH
  let size_dst := w_dst * h_dst * bits_per_pixel / 8
  if size_src ≠ size_dst then (.error MFX_ERR_UNKNOWN, dst)
  else (.ok MFX_ERR_NONE,
    { dst with Data := { dst.Data with
        bytes := ptrCopy src.Data.bytes dst.Data.bytes size_src } })

/-- C2: the inter-stage copy succeeds exactly when the crop areas agree
(equivalently, when the 12-bits-per-pixel byte sizes `w*h*12/8` agree:
`n ↦ n*12/8` is injective on `Nat`); on mismatch it returns
`Err(MFX_ERR_UNKNOWN)` with `dst` bit-for-bit unchanged; on match it
replaces exactly the first `size` bytes of `dst` with those of `src` and
leaves the rest of `dst` (bytes past `size`, geometry, lock counter)
unchanged. -/
theorem vppToEncSurface_spec (src dst : mfxFrameSurface1)
    (hsrc : src.Info.CropW * src.Info.CropH * 12 / 8 ≤ src.Data.bytes.length)
    (hdst : src.Info.CropW * src.Info.CropH * 12 / 8 ≤ dst.Data.bytes.length) :
    ((VppToEncSurface src dst).1 = .ok MFX_ERR_NONE ↔
        src.Info.CropW * src.Info.CropH = dst.Info.CropW * dst.Info.CropH)
    ∧ (src.Info.CropW * src.Info.CropH ≠ dst.Info.CropW * dst.Info.CropH →
        VppToEncSurface src dst = (.error MFX_ERR_UNKNOWN, dst))
    ∧ (src.Info.CropW * src.Info.CropH = dst.Info.CropW * dst.Info.CropH →
        (VppToEncSurface src dst).2.Info = dst.Info
        ∧ (VppToEncSurface src dst).2.Data.Locked = dst.Data.Locked
        ∧ (VppToEncSurface src dst).2.Data.bytes.length = dst.Data.bytes.length
        ∧ (VppToEncSurface src dst).2.Data.bytes.take
            (src.Info.CropW * src.Info.CropH * 12 / 8)
            = src.Data.bytes.take (src.Info.CropW * src.Info.CropH * 12 / 8)
        ∧ (VppToEncSurface src dst).2.Data.bytes.drop
            (src.Info.CropW * src.Info.CropH * 12 / 8)
            = dst.Data.bytes.drop (src.Info.CropW * src.Info.CropH * 12 / 8)) := by
  have hinj : ∀ m n : Nat, m * 12 / 8 = n * 12 / 8 → m = n := by
    intro m n h
    omega
  by_cases hp : src.Info.CropW * src.Info.CropH = dst.Info.CropW * dst.Info.CropH
  · have hsz : src.Info.CropW * src.Info.CropH * 12 / 8
        = dst.Info.CropW * dst.Info.CropH * 12 / 8 := by rw [hp]
    have hres : VppToEncSurface src dst = (.ok MFX_ERR_NONE,
        { dst with Data := { dst.Data with
            bytes := ptrCopy src.Data.bytes dst.Data.bytes
              (src.Info.CropW * src.Info.CropH * 12 / 8) } }) := by
      simp [VppToEncSurface, hsz]
    have hlen : (src.Data.bytes.take
        (src.Info.CropW * src.Info.CropH * 12 / 8)).length
        = src.Info.CropW * src.Info.CropH * 12 / 8 := by
      simp [List.length_take, Nat.min_eq_left hsrc]
    refine ⟨by simp [hres, hp], fun hne => absurd hp hne, fun _ => ?_⟩
    rw [hres]
    refine ⟨rfl, rfl, ?_, ?_, ?_⟩
    · simp only [ptrCopy, List.length_append, List.length_drop, hlen]
      omega
    · simp only [ptrCopy]
      rw [List.take_left' hlen]
    · simp only [ptrCopy]
      rw [List.drop_left' hlen]
  · have hsz : src.Info.CropW * src.Info.CropH * 12 / 8
        ≠ dst.Info.CropW * dst.Info.CropH * 12 / 8 := fun h => hp (hinj _ _ h)
    have hres : VppToEncSurface src dst = (.error MFX_ERR_UNKNOWN, dst) := by
      simp [VppToEncSurface, hsz]
    refine ⟨by simp [hres, hp], fun _ => hres, fun h => absurd h hp⟩

/-- Witness for `vppToEncSurface_spec`: a concrete matched copy of 6 bytes
between two 2 by 2 surfaces succeeds. -/
theorem vppToEncSurface_spec_witness :
    (VppToEncSurface ⟨⟨2, 2⟩, ⟨0, [1, 2, 3, 4, 5, 6]⟩⟩
        ⟨⟨2, 2⟩, ⟨0, [0, 0, 0, 0, 0, 0]⟩⟩).1 = .ok MFX_ERR_NONE :=
  (vppToEncSurface_spec ⟨⟨2, 2⟩, ⟨0, [1, 2, 3, 4, 5, 6]⟩⟩
      ⟨⟨2, 2⟩, ⟨0, [0, 0, 0, 0, 0, 0]⟩⟩ (by decide) (by decide)).1.mpr rfl

/-- Error type for the sink collaborator (`std::io::Error` as far as the
flush logic distinguishes it): the `InvalidData` kind raised on a short
write, or any other error kind propagated from the sink. -/
inductive IOError where
  | invalidData
  | other (code : Nat)
  deriving DecidableEq

/-- The fields of `mfxBitstream` the flush logic uses: the buffer, the
read cursor `DataOffset` and the valid length `DataLength` (both `u32`). -/
structure mfxBitstream where
  Data : List Nat
  DataOffset : Nat
  DataLength : Nat
  deriving DecidableEq

/-- `WriteBitStreamFrame` from src/main.rs lines 979-992, in state-passing
form.  The sink collaborator `file.write` is modelled as a function from
the buffer written to either an error (propagated by `?`) or the number of
bytes the sink accepted. -/
def WriteBitStreamFrame (bs : mfxBitstream)
    (write : List Nat → Except IOError Nat) :
    Except IOError Unit × mfxBitstream :=
  let buffer := (bs.Data.drop bs.DataOffset).take bs.DataLength
  match write buffer with
  | .error e => (.error e, bs)
  | .ok nBytesWritten =>
    if nBytesWritten ≠ bs.DataLength then (.error IOError.invalidData, bs)
    else (.ok (), { bs with DataLength := 0 })

/-- C3: the flush hands the sink exactly `DataLength` bytes taken from
`Data` starting at `DataOffset`; it succeeds iff the sink reports exactly
`DataLength` bytes written; on success `DataLength` is reset to 0 with
`DataOffset` and `Data` unchanged; on a short write it fails with
`InvalidData` and the whole bitstream state is unchanged. -/
theorem writeBitStreamFrame_flush (bs : mfxBitstream)
    (write : List Nat → Except IOError Nat)
    (hfit : bs.DataOffset + bs.DataLength ≤ bs.Data.length) :
    ((bs.Data.drop bs.DataOffset).take bs.DataLength).length = bs.DataLength
    ∧ ((WriteBitStreamFrame bs write).1 = .ok () ↔
        write ((bs.Data.drop bs.DataOffset).take bs.DataLength) = .ok bs.DataLength)
    ∧ ((WriteBitStreamFrame bs write).1 = .ok () →
        (WriteBitStreamFrame bs write).2 = { bs with DataLength := 0 })
    ∧ (∀ n, write ((bs.Data.drop bs.DataOffset).take bs.DataLength) = .ok n →
        n ≠ bs.DataLength →
        WriteBitStreamFrame bs write = (.error IOError.invalidData, bs)) := by
  have hblen : ((bs.Data.drop bs.DataOffset).take bs.DataLength).length
      = bs.DataLength := by
    simp only [List.length_take, List.length_drop]
    omega
  refine ⟨hblen, ?_, ?_, ?_⟩
  · cases hw : write ((bs.Data.drop bs.DataOffset).take bs.DataLength) with
    | error e =>
      simp [WriteBitStreamFrame, hw]
    | ok n =>
      by_cases hn : n = bs.DataLength
      · subst hn
        simp [WriteBitStreamFrame, hw]
      · simp [WriteBitStreamFrame, hw, hn]
  · intro hok
    cases hw : write ((bs.Data.drop bs.DataOffset).take bs.DataLength) with
    | error e =>
      simp [WriteBitStreamFrame, hw] at hok
    | ok n =>
      by_cases hn : n = bs.DataLength
      · subst hn
        simp [WriteBitStreamFrame, hw]
      · simp [WriteBitStreamFrame, hw, hn] at hok
  · intro n hw hn
    simp [WriteBitStreamFrame, hw, hn]

/-- Witness for `writeBitStreamFrame_flush` on a concrete bitstream with
`Data = [7, 8, 9]`, `DataOffset = 1`, `DataLength = 2` and a sink that
accepts everything it is given. -/
theorem writeBitStreamFrame_flush_witness :
    (WriteBitStreamFrame ⟨[7, 8, 9], 1, 2⟩ (fun b => .ok b.length)).1 = .ok () :=
  (writeBitStreamFrame_flush ⟨[7, 8, 9], 1, 2⟩ (fun b => .ok b.length)
      (by decide)).2.1.mpr rfl

/-- `LoadRawFrame` from src/main.rs lines 905-944 with the outcomes of the
three `file.read` calls (luma, then the two chroma planes) taken as
arguments: `.error` models `file.read` returning `Err`, `.ok n` a read of
`n` bytes.  The luma read is rejected only when it delivers 0 bytes; each
chroma read is rejected unless it delivers exactly `size / 4` bytes. -/
def LoadRawFrame (surface : mfxFrameSurface1) (r1 r2 r3 : Except Unit Nat) :
    Except mfxStatus mfxStatus :=
  let w := surface.Info.CropW
  let h := surface.Info.CropH
  let size := w * h
  match r1 with
  | .error _ => .error MFX_ERR_MORE_DATA
  | .ok n1 =>
    if n1 = 0 then .error MFX_ERR_MORE_DATA
    else
      let size_uv := size / 4
      match r2 with
      | .error _ => .error MFX_ERR_MORE_DATA
      | .ok n2 =>
        if n2 ≠ size_uv then .error MFX_ERR_MORE_DATA
        else
          match r3 with
          | .error _ => .error MFX_ERR_MORE_DATA
          | .ok n3 =>
            if n3 ≠ size_uv then .error MFX_ERR_MORE_DATA
            else .ok MFX_ERR_NONE

/-- Sequential read from a file with remaining contents `f`: a request for
`n` bytes delivers `min n f.length` bytes and leaves the rest. -/
def fileRead (f : List Nat) (n : Nat) : Nat × List Nat :=
  (min n f.length, f.drop n)

/-- `LoadRawFrame` driven by the sequential file model: the three
`file.read` calls read from one advancing file position, stopping at the
check that first fails, exactly as the Rust control flow does. -/
def LoadRawFrameFile (surface : mfxFrameSurface1) (file : List Nat) :
    Except mfxStatus mfxStatus × List Nat :=
  let size := surface.Info.CropW * surface.Info.CropH
  let r1 := fileRead file size
  if r1.1 = 0 then (.error MFX_ERR_MORE_DATA, r1.2)
  else
    let size_uv := size / 4
    let r2 := fileRead r1.2 size_uv
    if r2.1 ≠ size_uv then (.error MFX_ERR_MORE_DATA, r2.2)
    else
      let r3 := fileRead r2.2 size_uv
      if r3.1 ≠ size_uv then (.error MFX_ERR_MORE_DATA, r3.2)
      else (.ok MFX_ERR_NONE, r3.2)

/-- C4 (amended): the only error `LoadRawFrame` ever returns is
`MFX_ERR_MORE_DATA`, and it returns `Ok` iff the luma read succeeds with a
NONZERO byte count (not necessarily the full plane size) and each chroma
read succeeds with exactly `size / 4` bytes.  A read error or a short
chroma read therefore yields `Err(MFX_ERR_MORE_DATA)`, but a
short-but-nonzero luma read is not itself detected. -/
theorem loadRawFrame_more_data (surface : mfxFrameSurface1)
    (r1 r2 r3 : Except Unit Nat) :
    (∀ e, LoadRawFrame surface r1 r2 r3 = .error e → e = MFX_ERR_MORE_DATA)
    ∧ (LoadRawFrame surface r1 r2 r3 = .ok MFX_ERR_NONE ↔
        (∃ n1, r1 = .ok n1 ∧ n1 ≠ 0)
        ∧ r2 = .ok (surface.Info.CropW * surface.Info.CropH / 4)
        ∧ r3 = .ok (surface.Info.CropW * surface.Info.CropH / 4)) := by
  cases r1 with
  | error u =>
    refine ⟨?_, ?_⟩
    · intro e he
      simpa [LoadRawFrame] using he.symm
    · simp [LoadRawFrame]
  | ok n1 =>
    by_cases h1 : n1 = 0
    · subst h1
      refine ⟨?_, ?_⟩
      · intro e he
        simpa [LoadRawFrame] using he.symm
      · simp [LoadRawFrame]
    · cases r2 with
      | error u =>
        refine ⟨?_, ?_⟩
        · intro e he
          simpa [LoadRawFrame, h1] using he.symm
        · simp [LoadRawFrame, h1]
      | ok n2 =>
        by_cases h2 : n2 = surface.Info.CropW * surface.Info.CropH / 4
        · cases r3 with
          | error u =>
            refine ⟨?_, ?_⟩
            · intro e he
              simpa [LoadRawFrame, h1, h2] using he.symm
            · simp [LoadRawFrame, h1, h2]
          | ok n3 =>
            by_cases h3 : n3 = surface.Info.CropW * surface.Info.CropH / 4
            · refine ⟨?_, ?_⟩
              · intro e he
                simp [LoadRawFrame, h1, h2, h3] at he
              · subst h2 h3
                simp [LoadRawFrame, h1]
            · refine ⟨?_, ?_⟩
              · intro e he
                simpa [LoadRawFrame, h1, h2, h3] using he.symm
              · simp [LoadRawFrame, h1, h2, h3]
        · refine ⟨?_, ?_⟩
          · intro e he
            simpa [LoadRawFrame, h1, h2] using he.symm
          · simp [LoadRawFrame, h1, h2]

/-- Witness for `loadRawFrame_more_data`: a full 2 by 2 frame read (4 luma
bytes, 1 byte per chroma plane) succeeds. -/
theorem loadRawFrame_more_data_witness :
    LoadRawFrame ⟨⟨2, 2⟩, ⟨0, []⟩⟩ (.ok 4) (.ok 1) (.ok 1) = .ok MFX_ERR_NONE :=
  (loadRawFrame_more_data ⟨⟨2, 2⟩, ⟨0, []⟩⟩ (.ok 4) (.ok 1) (.ok 1)).2.mpr
    ⟨⟨4, rfl, by decide⟩, rfl, rfl⟩

/-- C4 counterexample: a 3 by 1 surface read from a 1-byte file.  The luma
read requests 3 bytes but delivers only 1 (a short read), yet
`LoadRawFrame` returns `Ok` because the luma check only rejects 0-byte
reads and the chroma plane size `3 / 4 = 0` makes both chroma checks pass;
the claim demands `Err(MFX_ERR_MORE_DATA)` for every short read. -/
theorem loadRawFrame_short_luma_counterexample :
    (fileRead [42] (3 * 1)).1 < 3 * 1
    ∧ (fileRead [42] (3 * 1)).1 ≠ 0
    ∧ (LoadRawFrameFile ⟨⟨3, 1⟩, ⟨0, []⟩⟩ [42]).1 = .ok MFX_ERR_NONE :=
  ⟨by decide, by decide, rfl⟩

/-- The two pipeline stages a `ProcessAsync` call can be submitted to. -/
inductive Stage where
  | vpp
  | enc
  deriving DecidableEq

/-- One `ProcessAsync` submission observed during a driver run, recording
the stage and whether an input surface was passed (`false` would be the
`NULL` end-of-stream drain submission). -/
structure Event where
  stage : Stage
  inputPresent : Bool
  deriving DecidableEq

/-- How a run of the driver loop of `main` ends.  `memAllocError`,
`frameCopyError` and `writeError` are the early `return Err(..)` paths
inside the loop; `encodeError` is the post-loop `return Err("Encode
error")` when the final status is not `MFX_ERR_MORE_DATA`; `okDone` is the
normal path that calls `MFXVideoENCODE_Close` and returns `Ok(())`
(process exit code 0); `fuelOut` marks runs longer than the supplied
environment trace and is not a terminating execution of the program. -/
inductive DriverResult where
  | memAllocError
  | frameCopyError
  | writeError (e : IOError)
  | encodeError
  | okDone
  | fuelOut
  deriving DecidableEq

/-- The behaviour of the external collaborators (SDK session, sink) during
one loop iteration: the pool contents as left by the SDK at each of the
three acquire points, the statuses the SDK returns from the async calls
and syncs, the `DataLength` the encoder leaves in the bitstream, and the
byte count (or error) the output file reports for the flush write. -/
structure IterEnv where
  vppInPool : List mfxFrameSurface1
  vppOutPool : List mfxFrameSurface1
  encPool : List mfxFrameSurface1
  vppStatus : mfxStatus
  vppSyncStatus : mfxStatus
  encStatus : mfxStatus
  encSyncStatus : mfxStatus
  encDataLength : Nat
  writeBytes : Except IOError Nat

/-- Observable outcome of a driver run: how it ended, the final processed
frame counter `nFrame`, the `ProcessAsync` submissions made, and how many
times `MFXVideoENCODE_Close` was called. -/
structure RunOut where
  result : DriverResult
  nFrame : Nat
  events : List Event
  closes : Nat
  deriving DecidableEq

/-- Placeholder surface for the (provably in-bounds) pool indexing. -/
def defaultSurface : mfxFrameSurface1 := ⟨⟨0, 0⟩, ⟨0, []⟩⟩

/-- Prefix the submission log of a run with earlier submissions. -/
def prependEvents (evs : List Event) (r : RunOut) : RunOut :=
  { r with events := evs ++ r.events }

/-- The code after the main loop, src/main.rs lines 1305-1312: if the
final status is not `MFX_ERR_MORE_DATA` the driver returns the "Encode
error" failure WITHOUT closing the encoder; otherwise it calls
`MFXVideoENCODE_Close` (once) and returns `Ok(())`. -/
def finishRun (sts : mfxStatus) (nFrame : Nat) : RunOut :=
  if sts ≠ MFX_ERR_MORE_DATA then ⟨.encodeError, nFrame, [], 0⟩
  else ⟨.okDone, nFrame, [], 1⟩

/-- The main encoding loop of `main`, src/main.rs lines 1217-1312.  Each
iteration: acquire a VPP input surface (failure returns the memory
allocation error), load a raw frame (failure sets `sts` and breaks to the
post-loop code), acquire a VPP output surface, submit
`MFXVideoVPP_RunFrameVPPAsync` with the (always present) input surface and
`continue` on `MFX_ERR_MORE_DATA`, sync (the sync status is printed and
then overwritten without being inspected), acquire an encoder surface,
copy via `VppToEncSurface` (failure returns the frame copy error), submit
`MFXVideoENCODE_EncodeFrameAsync` with the (always present) input surface
(positive statuses and `MFX_ERR_NOT_ENOUGH_BUFFER` are only printed), and
on exact success sync, count the frame and flush the bitstream (a flush
error propagates out via `?`).  The loop re-runs while
`MFX_ERR_NONE <= sts || MFX_ERR_MORE_DATA == sts`. -/
def driverLoop (sts : mfxStatus) (nFrame : Nat) (file : List Nat)
    (bs : mfxBitstream) : List IterEnv → RunOut
  | [] =>
    if MFX_ERR_NONE ≤ sts ∨ MFX_ERR_MORE_DATA = sts then ⟨.fuelOut, nFrame, [], 0⟩
    else finishRun sts nFrame
  | env :: rest =>
    if MFX_ERR_NONE ≤ sts ∨ MFX_ERR_MORE_DATA = sts then
      match GetFreeSurfaceIndex env.vppInPool with
        | .error _ => ⟨.memAllocError, nFrame, [], 0⟩
        | .ok nSurfIdxIn =>
          match LoadRawFrameFile (env.vppInPool.getD nSurfIdxIn defaultSurface) file with
          | (.error e, _) => finishRun e nFrame
          | (.ok _, file1) =>
            match GetFreeSurfaceIndex env.vppOutPool with
            | .error _ => ⟨.memAllocError, nFrame, [], 0⟩
            | .ok nSurfIdxOut =>
              if env.vppStatus = MFX_ERR_MORE_DATA then
                prependEvents [⟨Stage.vpp, true⟩]
                  (driverLoop env.vppStatus nFrame file1 bs rest)
              else
                match GetFreeSurfaceIndex env.encPool with
                | .error _ => ⟨.memAllocError, nFrame, [⟨Stage.vpp, true⟩], 0⟩
                | .ok nEncSurfIdx =>
                  match (VppToEncSurface
                      (env.vppOutPool.getD nSurfIdxOut defaultSurface)
                      (env.encPool.getD nEncSurfIdx defaultSurface)).1 with
                  | .error _ => ⟨.frameCopyError, nFrame, [⟨Stage.vpp, true⟩], 0⟩
                  | .ok _ =>
                    if env.encStatus = MFX_ERR_NONE then
                      match WriteBitStreamFrame
                          { bs with DataLength := env.encDataLength }
                          (fun _ => env.writeBytes) with
                      | (.error e, _) =>
                        ⟨.writeError e, nFrame + 1,
                          [⟨Stage.vpp, true⟩, ⟨Stage.enc, true⟩], 0⟩
                      | (.ok _, bs2) =>
                        prependEvents [⟨Stage.vpp, true⟩, ⟨Stage.enc, true⟩]
                          (driverLoop env.encSyncStatus (nFrame + 1) file1 bs2 rest)
                    else
                      prependEvents [⟨Stage.vpp, true⟩, ⟨Stage.enc, true⟩]
                        (driverLoop env.encStatus nFrame file1 bs rest)
    else finishRun sts nFrame

lemma finishRun_events (sts : mfxStatus) (n : Nat) : (finishRun sts n).events = [] := by
  unfold finishRun
  split <;> rfl

/-- The cleanup invariant: the encoder is closed exactly once on the
normal-exit outcome and zero times otherwise. -/
def closesMatchesResult (r : RunOut) : Prop :=
  r.closes = if r.result = DriverResult.okDone then 1 else 0

lemma finishRun_closes (sts : mfxStatus) (n : Nat) :
    closesMatchesResult (finishRun sts n) := by
  unfold closesMatchesResult finishRun
  split <;> simp

lemma prependEvents_closes (evs : List Event) (r : RunOut) :
    closesMatchesResult (prependEvents evs r) ↔ closesMatchesResult r := by
  simp [closesMatchesResult, prependEvents]

lemma loadRawFrameFile_error_more_data (s : mfxFrameSurface1) (f : List Nat)
    (e : mfxStatus) (h : (LoadRawFrameFile s f).1 = .error e) :
    e = MFX_ERR_MORE_DATA := by
  simp only [LoadRawFrameFile] at h
  repeat' split at h
  all_goals simp_all

lemma loadRawFrameFile_nil (s : mfxFrameSurface1) :
    LoadRawFrameFile s [] = (.error MFX_ERR_MORE_DATA, []) := by
  simp [LoadRawFrameFile, fileRead]

lemma driverLoop_exit (sts : mfxStatus) (n : Nat) (file : List Nat)
    (bs : mfxBitstream) (envs : List IterEnv)
    (h : ¬ (MFX_ERR_NONE ≤ sts ∨ MFX_ERR_MORE_DATA = sts)) :
    driverLoop sts n file bs envs = finishRun sts n := by
  cases envs <;> rw [driverLoop] <;> rw [if_neg h]

lemma driverLoop_events_present (envs : List IterEnv) :
    ∀ (sts : mfxStatus) (n : Nat) (file : List Nat) (bs : mfxBitstream),
      ∀ ev ∈ (driverLoop sts n file bs envs).events, ev.inputPresent = true := by
  induction envs with
  | nil =>
    intro sts n file bs ev hev
    rw [driverLoop] at hev
    split at hev
    · simp at hev
    · rw [finishRun_events] at hev
      simp at hev
  | cons env rest ih =>
    intro sts n file bs
    rw [driverLoop]
    split
    case isFalse =>
      intro ev hev
      rw [finishRun_events] at hev
      simp at hev
    case isTrue =>
      repeat' split
      all_goals intro ev hev
      all_goals
        first
        | (rw [finishRun_events] at hev
           simp at hev)
        | (simp only [prependEvents, List.mem_append] at hev
           rcases hev with hl | hr
           · simp at hl
             all_goals
               first
               | (subst hl; rfl)
               | (rcases hl with hl | hl <;> subst hl <;> rfl)
           · exact ih _ _ _ _ ev hr)
        | (simp at hev
           all_goals
             first
             | (subst hev; rfl)
             | (rcases hev with hl | hl <;> subst hl <;> rfl))

lemma driverLoop_closes (envs : List IterEnv) :
    ∀ (sts : mfxStatus) (n : Nat) (file : List Nat) (bs : mfxBitstream),
      closesMatchesResult (driverLoop sts n file bs envs) := by
  induction envs with
  | nil =>
    intro sts n file bs
    rw [driverLoop]
    split
    · simp [closesMatchesResult]
    · exact finishRun_closes _ _
  | cons env rest ih =>
    intro sts n file bs
    rw [driverLoop]
    split
    case isFalse => exact finishRun_closes _ _
    case isTrue =>
      repeat' split
      all_goals
        first
        | (simp [closesMatchesResult]
           done)
        | exact finishRun_closes _ _
        | exact (prependEvents_closes _ _).mpr (ih _ _ _ _)

lemma driverLoop_read_fail (sts : mfxStatus) (n : Nat) (file : List Nat)
    (bs : mfxBitstream) (env : IterEnv) (rest : List IterEnv) (i : Nat)
    (hentry : MFX_ERR_NONE ≤ sts ∨ MFX_ERR_MORE_DATA = sts)
    (hin : GetFreeSurfaceIndex env.vppInPool = .ok i)
    (hfail : ∃ e, (LoadRawFrameFile (env.vppInPool.getD i defaultSurface) file).1
      = .error e) :
    driverLoop sts n file bs (env :: rest) = ⟨DriverResult.okDone, n, [], 1⟩ := by
  obtain ⟨e, h1⟩ := hfail
  have he : e = MFX_ERR_MORE_DATA := loadRawFrameFile_error_more_data _ _ _ h1
  subst he
  cases hp : LoadRawFrameFile (env.vppInPool.getD i defaultSurface) file with
  | mk r f2 =>
    rw [hp] at h1
    simp at h1
    subst h1
    rw [driverLoop, if_pos hentry]
    simp only [hin, hp]
    simp [finishRun]

/-- An iteration environment whose VPP input pool has one free surface
(the other collaborator data is irrelevant for runs that stop at the
source read). -/
def envFreeIn : IterEnv := ⟨[freeSurface22], [], [], 0, 0, 0, 0, 0, .ok 0⟩

/-- An iteration environment whose VPP input pool has a single locked
surface: pool exhaustion at the first acquire. -/
def envLockedIn : IterEnv := ⟨[lockedSurface], [], [], 0, 0, 0, 0, 0, .ok 0⟩

/-- An iteration environment in which every collaborator call succeeds
exactly: free pools of matching 2 by 2 geometry, zero statuses, an empty
encoded frame and a sink accepting it. -/
def envAllOk : IterEnv :=
  ⟨[freeSurface22], [freeSurface22], [freeSurface22], 0, 0, 0, 0, 0, .ok 0⟩

/-- Like `envAllOk` but the encoder's `ProcessAsync` reports
`MFX_ERR_NOT_ENOUGH_BUFFER`. -/
def envNotEnoughBuffer : IterEnv :=
  ⟨[freeSurface22], [freeSurface22], [freeSurface22], 0, 0,
    MFX_ERR_NOT_ENOUGH_BUFFER, 0, 0, .ok 0⟩

/-- Like `envAllOk` but the encoder's `ProcessAsync` reports the positive
warning status 4 (`MFX_WRN_PARTIAL_ACCELERATION`). -/
def envEncodeWarn : IterEnv :=
  ⟨[freeSurface22], [freeSurface22], [freeSurface22], 0, 0, 4, 0, 0, .ok 0⟩

/-- C5 (amended): there is no draining phase.  Every `ProcessAsync`
submission the driver ever makes carries a present (non-NULL) input
surface, and when the source read reports "more data needed" the driver
immediately leaves the loop (making no drain submission in that
iteration or afterwards), closes the Encode stage once and returns
success. -/
theorem driver_no_null_drain (sts : mfxStatus) (n : Nat) (file : List Nat)
    (bs : mfxBitstream) (envs : List IterEnv) (env : IterEnv)
    (rest : List IterEnv) (i : Nat)
    (hentry : MFX_ERR_NONE ≤ sts ∨ MFX_ERR_MORE_DATA = sts)
    (hin : GetFreeSurfaceIndex env.vppInPool = .ok i)
    (hfail : ∃ e, (LoadRawFrameFile (env.vppInPool.getD i defaultSurface) file).1
      = .error e) :
    (∀ ev ∈ (driverLoop sts n file bs envs).events, ev.inputPresent = true)
    ∧ driverLoop sts n file bs (env :: rest) = ⟨DriverResult.okDone, n, [], 1⟩ :=
  ⟨driverLoop_events_present envs sts n file bs,
   driverLoop_read_fail sts n file bs env rest i hentry hin hfail⟩

/-- Witness for `driver_no_null_drain`: a run on the empty file with one
free input surface. -/
theorem driver_no_null_drain_witness :
    (∀ ev ∈ (driverLoop 0 0 [] ⟨[], 0, 0⟩ [envFreeIn]).events,
      ev.inputPresent = true)
    ∧ driverLoop 0 0 [] ⟨[], 0, 0⟩ (envFreeIn :: []) =
        ⟨DriverResult.okDone, 0, [], 1⟩ :=
  driver_no_null_drain 0 0 [] ⟨[], 0, 0⟩ [envFreeIn] envFreeIn [] 0
    (Or.inl (by decide)) rfl ⟨MFX_ERR_MORE_DATA, rfl⟩

/-- C5 counterexample: the claim says that after the source reports "more
data needed" the driver keeps submitting `ProcessAsync` with a NULL input
until the stage returns MoreData.  In this concrete run the source is
exhausted at the first read (empty file) and collaborator budget for two
more iterations is available, yet the driver terminates at once with an
EMPTY submission log — no drain submission (NULL-input or otherwise) is
ever made. -/
theorem driver_no_drain_counterexample :
    driverLoop 0 0 [] ⟨[], 0, 0⟩ [envFreeIn, envFreeIn]
      = ⟨DriverResult.okDone, 0, [], 1⟩ := rfl

/-- C6 (amended): `MFXVideoENCODE_Close` is called exactly once when the
driver ends by the normal end-of-stream path (`okDone`), and ZERO times on
every other outcome — the early fatal returns (pool exhaustion, copy
failure, flush failure) and the post-loop "Encode error" return all skip
the close call. -/
theorem driver_close_only_on_normal_exit (sts : mfxStatus) (n : Nat)
    (file : List Nat) (bs : mfxBitstream) (envs : List IterEnv) :
    (driverLoop sts n file bs envs).closes =
      if (driverLoop sts n file bs envs).result = DriverResult.okDone
      then 1 else 0 :=
  driverLoop_closes envs sts n file bs

/-- Witness for `driver_close_only_on_normal_exit` on a concrete
pool-exhaustion run. -/
theorem driver_close_only_on_normal_exit_witness :
    (driverLoop 0 0 [] ⟨[], 0, 0⟩ [envLockedIn]).closes =
      if (driverLoop 0 0 [] ⟨[], 0, 0⟩ [envLockedIn]).result
          = DriverResult.okDone then 1 else 0 :=
  driver_close_only_on_normal_exit 0 0 [] ⟨[], 0, 0⟩ [envLockedIn]

/-- C6 counterexample: a terminating execution that fails with pool
exhaustion (the only VPP input surface is locked) returns the memory
allocation error and calls `MFXVideoENCODE_Close` ZERO times, not exactly
once as the claim states. -/
theorem driver_close_counterexample :
    (driverLoop 0 0 [] ⟨[], 0, 0⟩ [envLockedIn]).result
        = DriverResult.memAllocError
    ∧ (driverLoop 0 0 [] ⟨[], 0, 0⟩ [envLockedIn]).closes = 0 :=
  ⟨rfl, rfl⟩

/-- C7 (amended): in an iteration that reaches the encoder submission, a
POSITIVE encode status is indeed non-fatal — the loop proceeds to the next
iteration carrying that status — but `MFX_ERR_NOT_ENOUGH_BUFFER` is only
logged and then KILLS the loop: the while condition rejects the negative
status and the driver returns the "Encode error" failure without
consuming any further collaborator budget. -/
theorem driver_encode_status_handling (sts : mfxStatus) (n : Nat)
    (file : List Nat) (bs : mfxBitstream) (env : IterEnv)
    (rest : List IterEnv) (i o k : Nat)
    (hentry : MFX_ERR_NONE ≤ sts ∨ MFX_ERR_MORE_DATA = sts)
    (hin : GetFreeSurfaceIndex env.vppInPool = .ok i)
    (hread : (LoadRawFrameFile (env.vppInPool.getD i defaultSurface) file).1
      = .ok MFX_ERR_NONE)
    (hout : GetFreeSurfaceIndex env.vppOutPool = .ok o)
    (hvpp : env.vppStatus ≠ MFX_ERR_MORE_DATA)
    (henc : GetFreeSurfaceIndex env.encPool = .ok k)
    (hcopy : (VppToEncSurface (env.vppOutPool.getD o defaultSurface)
        (env.encPool.getD k defaultSurface)).1 = .ok MFX_ERR_NONE) :
    (0 < env.encStatus →
      driverLoop sts n file bs (env :: rest) =
        prependEvents [⟨Stage.vpp, true⟩, ⟨Stage.enc, true⟩]
          (driverLoop env.encStatus n
            (LoadRawFrameFile (env.vppInPool.getD i defaultSurface) file).2
            bs rest))
    ∧ (env.encStatus = MFX_ERR_NOT_ENOUGH_BUFFER →
        driverLoop sts n file bs (env :: rest) =
          ⟨DriverResult.encodeError, n,
            [⟨Stage.vpp, true⟩, ⟨Stage.enc, true⟩], 0⟩) := by
  cases hp : LoadRawFrameFile (env.vppInPool.getD i defaultSurface) file with
  | mk r f2 =>
    rw [hp] at hread
    simp at hread
    subst hread
    constructor
    · intro hpos
      have hne : ¬ env.encStatus = MFX_ERR_NONE := by
        intro h
        rw [h] at hpos
        exact absurd hpos (by decide)
      rw [driverLoop, if_pos hentry]
      simp only [hin, hp, hout, henc, hcopy, if_neg hvpp, if_neg hne]
    · intro hnb
      have hne : ¬ env.encStatus = MFX_ERR_NONE := by
        rw [hnb]
        decide
      have hcond : ¬ (MFX_ERR_NONE ≤ env.encStatus
          ∨ MFX_ERR_MORE_DATA = env.encStatus) := by
        rw [hnb]
        decide
      rw [driverLoop, if_pos hentry]
      simp only [hin, hp, hout, henc, hcopy, if_neg hvpp, if_neg hne]
      rw [driverLoop_exit _ _ _ _ _ hcond, hnb]
      simp only [prependEvents, finishRun]
      norm_num [MFX_ERR_NOT_ENOUGH_BUFFER, MFX_ERR_MORE_DATA]

/-- Witness for `driver_encode_status_handling`: a concrete iteration with
a positive encode warning status continues into the next iteration. -/
theorem driver_encode_status_handling_witness :
    driverLoop 0 0 [0, 0, 0, 0, 0, 0] ⟨[], 0, 0⟩ [envEncodeWarn] =
      prependEvents [⟨Stage.vpp, true⟩, ⟨Stage.enc, true⟩]
        (driverLoop envEncodeWarn.encStatus 0
          (LoadRawFrameFile (envEncodeWarn.vppInPool.getD 0 defaultSurface)
            [0, 0, 0, 0, 0, 0]).2 ⟨[], 0, 0⟩ []) :=
  (driver_encode_status_handling 0 0 [0, 0, 0, 0, 0, 0] ⟨[], 0, 0⟩
      envEncodeWarn [] 0 0 0 (Or.inl (by decide)) rfl rfl rfl (by decide)
      rfl rfl).1 (by decide)

/-- C7 counterexample: the encoder reports `MFX_ERR_NOT_ENOUGH_BUFFER`
(-5) in the first iteration; although a further fully-successful iteration
environment is available, the driver aborts with the "Encode error"
failure instead of proceeding — refuting "the loop proceeds rather than
aborting the pipeline with an error". -/
theorem driver_not_enough_buffer_counterexample :
    driverLoop 0 0 [0, 0, 0, 0, 0, 0] ⟨[], 0, 0⟩ [envNotEnoughBuffer, envAllOk]
      = ⟨DriverResult.encodeError, 0,
          [⟨Stage.vpp, true⟩, ⟨Stage.enc, true⟩], 0⟩ := rfl

/-- C9: on a zero-length input file the very first source read delivers 0
luma bytes and reports "more data needed"; the driver (entering the loop
with a success status and a free input surface) terminates normally: it
returns `Ok(())` (exit code 0) with the frame counter at 0, having
submitted no frame to either stage (empty submission log), closing the
encoder once. -/
theorem driver_zero_length_input (bs : mfxBitstream) (env : IterEnv)
    (rest : List IterEnv) (i : Nat)
    (hin : GetFreeSurfaceIndex env.vppInPool = .ok i) :
    (∀ s, (LoadRawFrameFile s []).1 = .error MFX_ERR_MORE_DATA)
    ∧ driverLoop MFX_ERR_NONE 0 [] bs (env :: rest)
        = ⟨DriverResult.okDone, 0, [], 1⟩ := by
  refine ⟨fun s => by rw [loadRawFrameFile_nil], ?_⟩
  exact driverLoop_read_fail MFX_ERR_NONE 0 [] bs env rest i (Or.inl le_rfl) hin
    ⟨MFX_ERR_MORE_DATA, by rw [loadRawFrameFile_nil]⟩

/-- Witness for `driver_zero_length_input` with a concrete one-surface
pool. -/
theorem driver_zero_length_input_witness :
    (∀ s, (LoadRawFrameFile s []).1 = .error MFX_ERR_MORE_DATA)
    ∧ driverLoop MFX_ERR_NONE 0 [] ⟨[], 0, 0⟩ (envFreeIn :: [])
        = ⟨DriverResult.okDone, 0, [], 1⟩ :=
  driver_zero_length_input ⟨[], 0, 0⟩ envFreeIn [] 0 rfl
